import Mathlib

/-!
Verification development for the VkDraw repository (a minimal Vulkan/SDL2
rendering demo).  The definitions below are a shallow embedding of the
swapchain-selection logic and the frame-loop state machine of
`src/app.cpp` (function `create_swapchain`, `recreate_swapchain`,
`draw_frame`, and the synchronization-object setup inside `run`), and of
the top-level exception handling in `src/main.cpp`.
-/

namespace VkDraw

/-- Constant `MAX_FRAMES_IN_FLIGHT` from `app.cpp`. -/
def MAX_FRAMES_IN_FLIGHT : Nat := 2

/-- Numeric value of `std::numeric_limits<uint32_t>::max()`. -/
def UINT32_MAX : Nat := 4294967295

/-- Modulus of `uint32_t` arithmetic. -/
def U32_MOD : Nat := 4294967296

/-- The C++ conversion `static_cast<uint32_t>(i)` for a signed integer `i`
(two's-complement / modular conversion). -/
def toU32 (i : Int) : Nat := (i % (4294967296 : Int)).toNat

/-- Vulkan enum value `VK_FORMAT_B8G8R8A8_SRGB` (= 50). -/
def VK_FORMAT_B8G8R8A8_SRGB : Nat := 50

/-- Vulkan enum value `VK_COLOR_SPACE_SRGB_NONLINEAR_KHR` (= 0). -/
def VK_COLOR_SPACE_SRGB_NONLINEAR_KHR : Nat := 0

/-- Vulkan enum value `VK_PRESENT_MODE_MAILBOX_KHR` (= 1). -/
def VK_PRESENT_MODE_MAILBOX_KHR : Nat := 1

/-- Vulkan enum value `VK_PRESENT_MODE_FIFO_KHR` (= 2). -/
def VK_PRESENT_MODE_FIFO_KHR : Nat := 2

/-- A `VkSurfaceFormatKHR` value: a format together with a colorspace. -/
structure VkSurfaceFormatKHR where
  format : Nat
  colorSpace : Nat
deriving DecidableEq, Repr

/-- A `VkExtent2D` value. -/
structure VkExtent2D where
  width : Nat
  height : Nat
deriving DecidableEq, Repr

/-- The fields of `VkSurfaceCapabilitiesKHR` that `create_swapchain` reads. -/
structure VkSurfaceCapabilitiesKHR where
  minImageCount : Nat
  maxImageCount : Nat
  currentExtent : VkExtent2D
  minImageExtent : VkExtent2D
  maxImageExtent : VkExtent2D
deriving DecidableEq, Repr

/-- Struct `SwapchainSupport` from `app.cpp`: the three query results that
`create_swapchain` stores before running its selection blocks. -/
structure SwapchainSupport where
  capabilities : VkSurfaceCapabilitiesKHR
  formats : List VkSurfaceFormatKHR
  present_modes : List Nat
deriving DecidableEq, Repr

/-- Predicate of the format-selection loop in `create_swapchain`:
`format.format == VK_FORMAT_B8G8R8A8_SRGB && format.colorSpace ==
VK_COLOR_SPACE_SRGB_NONLINEAR_KHR`. -/
def is_preferred_format (f : VkSurfaceFormatKHR) : Bool :=
  f.format == VK_FORMAT_B8G8R8A8_SRGB && f.colorSpace == VK_COLOR_SPACE_SRGB_NONLINEAR_KHR

/-- The preferred surface format, as a value. -/
def preferred_format : VkSurfaceFormatKHR :=
  { format := VK_FORMAT_B8G8R8A8_SRGB, colorSpace := VK_COLOR_SPACE_SRGB_NONLINEAR_KHR }

/-- The format-selection loop of `create_swapchain`.  `prev` is the value the
static variable `_swapchain_format` holds when the loop starts (zero
initialized, i.e. `VK_FORMAT_UNDEFINED` / `SRGB_NONLINEAR`, before the first
call).  The loop assigns `_swapchain_format = format; break;` on the first
element matching the preferred pair and leaves the variable untouched
otherwise. -/
def select_format (prev : VkSurfaceFormatKHR) : List VkSurfaceFormatKHR → VkSurfaceFormatKHR
  | [] => prev
  | f :: rest => if is_preferred_format f then f else select_format prev rest

/-- The mode-selection loop of `create_swapchain`.  `prev` is the value of
the static `_swapchain_mode` (initialized to `VK_PRESENT_MODE_FIFO_KHR`).
The loop assigns `_swapchain_mode = mode` on every element equal to
`VK_PRESENT_MODE_MAILBOX_KHR` and has no `break`. -/
def select_mode (prev : Nat) (modes : List Nat) : Nat :=
  modes.foldl (fun cur mode => if mode == VK_PRESENT_MODE_MAILBOX_KHR then mode else cur) prev

/-- The `std::clamp(v, lo, hi)` call used in the extent-selection block. -/
def clampU32 (v lo hi : Nat) : Nat :=
  if v < lo then lo else if hi < v then hi else v

/-- The extent-selection block of `create_swapchain`: if
`capabilities.currentExtent.width == std::numeric_limits<uint32_t>::max()`
the SDL drawable size `(drawW, drawH)` is cast to `uint32_t` and clamped
componentwise to `[minImageExtent, maxImageExtent]`, otherwise
`currentExtent` is taken verbatim. -/
def select_extent (caps : VkSurfaceCapabilitiesKHR) (drawW drawH : Int) : VkExtent2D :=
  if caps.currentExtent.width = UINT32_MAX then
    { width := clampU32 (toU32 drawW) caps.minImageExtent.width caps.maxImageExtent.width,
      height := clampU32 (toU32 drawH) caps.minImageExtent.height caps.maxImageExtent.height }
  else
    caps.currentExtent

/-- The requested image count in `create_swapchain`:
`std::min(capabilities.minImageCount + 1, capabilities.maxImageCount)`,
computed in `uint32_t` arithmetic. -/
def image_count (caps : VkSurfaceCapabilitiesKHR) : Nat :=
  min ((caps.minImageCount + 1) % U32_MOD) caps.maxImageCount

/-- The static selection state `create_swapchain` reads and writes: the
previous values of `_swapchain_format` and `_swapchain_mode`. -/
structure SelectionState where
  prevFormat : VkSurfaceFormatKHR
  prevMode : Nat
deriving DecidableEq, Repr

/-- Initial values of the statics: `_swapchain_format` is zero initialized
(`VK_FORMAT_UNDEFINED` = 0, colorspace 0) and `_swapchain_mode` is
initialized to `VK_PRESENT_MODE_FIFO_KHR`. -/
def initial_selection_state : SelectionState :=
  { prevFormat := { format := 0, colorSpace := 0 }, prevMode := VK_PRESENT_MODE_FIFO_KHR }

/-- The (format, mode, extent) triple chosen by one `create_swapchain` call. -/
structure Selection where
  format : VkSurfaceFormatKHR
  mode : Nat
  extent : VkExtent2D
deriving DecidableEq, Repr

/-- The three selection blocks of `create_swapchain`, as a function of the
static state and of the four queried inputs (formats, present modes,
capabilities, window drawable size). -/
def create_swapchain_select (st : SelectionState) (sup : SwapchainSupport)
    (drawW drawH : Int) : Selection :=
  { format := select_format st.prevFormat sup.formats,
    mode := select_mode st.prevMode sup.present_modes,
    extent := select_extent sup.capabilities drawW drawH }

/-- One `create_swapchain` call including its write-back to the statics:
the chosen format and mode become the new values of `_swapchain_format`
and `_swapchain_mode`. -/
def create_swapchain_call (st : SelectionState) (sup : SwapchainSupport)
    (drawW drawH : Int) : Selection × SelectionState :=
  let sel := create_swapchain_select st sup drawW drawH
  (sel, { prevFormat := sel.format, prevMode := sel.mode })

/-- The `VkResult` values `draw_frame` distinguishes.  Any return code other
than `VK_SUCCESS`, `VK_SUBOPTIMAL_KHR` and `VK_ERROR_OUT_OF_DATE_KHR` is
collapsed into `otherError` (carrying its numeric code). -/
inductive VkResult where
  | success
  | suboptimalKHR
  | errorOutOfDateKHR
  | otherError (code : Int)
deriving DecidableEq, Repr

/-- Observable side effects of one `draw_frame` tick on the Vulkan device.
Each constructor names the corresponding API call in `app.cpp`. -/
inductive Effect where
  | waitFence (slot : Nat)
  | acquireImage (slot : Nat)
  | deviceWaitIdle
  | destroySwapchain
  | createSwapchain
  | resetFence (slot : Nat)
  | updateUBOs (slot : Nat)
  | resetCommandBuffer (slot : Nat)
  | recordCommand (slot : Nat) (image : Nat)
  | queueSubmit (slot : Nat)
  | presentImage (image : Nat)
deriving DecidableEq, Repr

/-- The mutable state of the frame loop that the claims observe:
`_current_frame`, `_window_resized`, the signaled flags of the
`_in_flight` fences, and a generation counter that increments every time
the swapchain (with its image views and framebuffers) is destroyed and
rebuilt as a unit. -/
structure AppState where
  current_frame : Nat
  window_resized : Bool
  fences : List Bool
  swapchain_generation : Nat
deriving DecidableEq, Repr

/-- Function `recreate_swapchain` from `app.cpp`: if the window is
minimized it returns immediately; otherwise it waits for the device to be
idle, destroys the framebuffers/views/swapchain, recreates them, and
clears `_window_resized`. -/
def recreate_swapchain (minimized : Bool) (s : AppState) : AppState × List Effect :=
  if minimized then
    (s, [])
  else
    ({ s with swapchain_generation := s.swapchain_generation + 1, window_resized := false },
     [Effect.deviceWaitIdle, Effect.destroySwapchain, Effect.createSwapchain])

/-- The environment readings of one `draw_frame` tick: the result of
`vkAcquireNextImageKHR` with the acquired image index, whether
`vkQueueSubmit` returns `VK_SUCCESS`, the result of `vkQueuePresentKHR`,
and whether `SDL_GetWindowFlags` reports the window minimized. -/
structure TickInput where
  acquireRes : VkResult
  imageIdx : Nat
  submitOk : Bool
  presentRes : VkResult
  minimized : Bool
deriving DecidableEq, Repr

/-- Function `draw_frame` from `app.cpp`, as a step of the state machine.
A thrown `std::runtime_error` is the `Except.error` case (the process then
aborts); otherwise the new state is returned together with the list of
effects performed during the tick, in program order. -/
def draw_frame (inp : TickInput) (s : AppState) : Except String (AppState × List Effect) :=
  let cf := s.current_frame
  let pre : List Effect := [Effect.waitFence cf, Effect.acquireImage cf]
  if inp.acquireRes = VkResult.errorOutOfDateKHR then
    let r := recreate_swapchain inp.minimized s
    Except.ok (r.1, pre ++ r.2)
  else if inp.acquireRes ≠ VkResult.success ∧ inp.acquireRes ≠ VkResult.suboptimalKHR then
    Except.error "Failed to acquire swapchain images!"
  else
    let s1 : AppState := { s with fences := s.fences.set cf false }
    let mid : List Effect :=
      pre ++ [Effect.resetFence cf, Effect.updateUBOs cf, Effect.resetCommandBuffer cf,
              Effect.recordCommand cf inp.imageIdx]
    if inp.submitOk = false then
      Except.error "Failed to submit queue!"
    else
      let sub : List Effect := mid ++ [Effect.queueSubmit cf, Effect.presentImage inp.imageIdx]
      if inp.presentRes = VkResult.errorOutOfDateKHR ∨ inp.presentRes = VkResult.suboptimalKHR ∨
          s1.window_resized = true then
        let r := recreate_swapchain inp.minimized s1
        Except.ok ({ r.1 with current_frame := (cf + 1) % MAX_FRAMES_IN_FLIGHT }, sub ++ r.2)
      else if inp.presentRes ≠ VkResult.success then
        Except.error "Failed to present swap chain image!"
      else
        Except.ok ({ s1 with current_frame := (cf + 1) % MAX_FRAMES_IN_FLIGHT }, sub)

/-- Numeric value of `VK_FENCE_CREATE_SIGNALED_BIT`. -/
def VK_FENCE_CREATE_SIGNALED_BIT : Nat := 1

/-- Signaled flag of a fence freshly created by `vkCreateFence` with the
given `VkFenceCreateInfo.flags`. -/
def fence_created_signaled (flags : Nat) : Bool :=
  flags &&& VK_FENCE_CREATE_SIGNALED_BIT != 0

/-- The synchronization-object setup loop in `run`: `MAX_FRAMES_IN_FLIGHT`
fences are each created with `fence_info.flags = VK_FENCE_CREATE_SIGNALED_BIT`. -/
def create_sync_fences : List Bool :=
  List.replicate MAX_FRAMES_IN_FLIGHT (fence_created_signaled VK_FENCE_CREATE_SIGNALED_BIT)

/-- The frame-loop state right after `run` finishes initialization:
`_current_frame = 0`, `_window_resized = false`, the fences as created by
the setup loop, and generation 0 for the initial swapchain. -/
def init_state : AppState :=
  { current_frame := 0, window_resized := false, fences := create_sync_fences,
    swapchain_generation := 0 }

/-- Whether the blocking `vkWaitForFences` at the top of `draw_frame` would
find the current slot's fence unsignaled (and hence block until the GPU
signals it). -/
def wait_would_block (s : AppState) : Bool :=
  !(s.fences.getD s.current_frame false)

/-- Iterate `draw_frame` over a list of tick inputs, accumulating effects;
a thrown error aborts the sequence. -/
def run_ticks : List TickInput → AppState → Except String (AppState × List Effect)
  | [], s => Except.ok (s, [])
  | inp :: rest, s =>
    match draw_frame inp s with
    | Except.error e => Except.error e
    | Except.ok (s', eff) =>
      match run_ticks rest s' with
      | Except.error e => Except.error e
      | Except.ok (s'', eff') => Except.ok (s'', eff ++ eff')

/-- Exit code `EXIT_SUCCESS`. -/
def EXIT_SUCCESS : Int := 0

/-- Exit code `EXIT_FAILURE`. -/
def EXIT_FAILURE : Int := 1

/-- The possible outcomes of `VkDraw::run`: a normal return of an exit
code, or a thrown exception carrying a message. -/
inductive RunOutcome where
  | ret (code : Int)
  | threw (msg : String)
deriving DecidableEq, Repr

/-- Function `main` from `main.cpp`: `res` starts at `EXIT_SUCCESS`, the
call `res = VkDraw::run(args)` is wrapped in a single try/catch whose
handler sets `res = EXIT_FAILURE`, and `res` is returned. -/
def main_result (r : RunOutcome) : Int :=
  match r with
  | RunOutcome.ret code => code
  | RunOutcome.threw _ => EXIT_FAILURE

/-- A format passes the loop's test exactly when it is the preferred pair. -/
theorem is_preferred_format_iff (f : VkSurfaceFormatKHR) :
    is_preferred_format f = true ↔ f = preferred_format := by
  cases f with
  | mk fmt cs =>
    simp [is_preferred_format, preferred_format, VK_FORMAT_B8G8R8A8_SRGB,
      VK_COLOR_SPACE_SRGB_NONLINEAR_KHR, VkSurfaceFormatKHR.mk.injEq]

/-- When the preferred pair occurs in the list, the loop selects it. -/
theorem select_format_of_mem (prev : VkSurfaceFormatKHR) (formats : List VkSurfaceFormatKHR)
    (h : preferred_format ∈ formats) : select_format prev formats = preferred_format := by
  induction formats with
  | nil => simp at h
  | cons f rest ih =>
    by_cases hf : is_preferred_format f = true
    · rw [select_format, if_pos hf, (is_preferred_format_iff f).mp hf]
    · have hne : f ≠ preferred_format := fun he => hf ((is_preferred_format_iff f).mpr he)
      rw [select_format, if_neg hf]
      rcases List.mem_cons.mp h with h1 | h1
      · exact absurd h1.symm hne
      · exact ih h1

/-- When the preferred pair is absent, the loop never assigns and the
static keeps its previous value. -/
theorem select_format_of_not_mem (prev : VkSurfaceFormatKHR) (formats : List VkSurfaceFormatKHR)
    (h : preferred_format ∉ formats) : select_format prev formats = prev := by
  induction formats with
  | nil => rfl
  | cons f rest ih =>
    have hne : f ≠ preferred_format := fun he => h (he ▸ List.mem_cons_self f rest)
    have hf : ¬ is_preferred_format f = true := fun hf => hne ((is_preferred_format_iff f).mp hf)
    rw [select_format, if_neg hf]
    exact ih (fun hm => h (List.mem_cons_of_mem f hm))

/-- Characterization of the mode-selection loop. -/
theorem select_mode_eq (prev : Nat) (modes : List Nat) :
    select_mode prev modes =
      if VK_PRESENT_MODE_MAILBOX_KHR ∈ modes then VK_PRESENT_MODE_MAILBOX_KHR else prev := by
  induction modes generalizing prev with
  | nil => simp [select_mode]
  | cons m rest ih =>
    have hstep : select_mode prev (m :: rest) =
        select_mode (if m == VK_PRESENT_MODE_MAILBOX_KHR then m else prev) rest := rfl
    rw [hstep, ih]
    by_cases hm : m = VK_PRESENT_MODE_MAILBOX_KHR
    · subst hm
      by_cases hr : VK_PRESENT_MODE_MAILBOX_KHR ∈ rest <;> simp [hr]
    · by_cases hr : VK_PRESENT_MODE_MAILBOX_KHR ∈ rest <;>
        simp [hr, List.mem_cons, hm, Ne.symm hm]

/-- The branchy `std::clamp` equals the mathematical clamp when the bounds
are ordered. -/
theorem clampU32_eq (v lo hi : Nat) (h : lo ≤ hi) : clampU32 v lo hi = max lo (min v hi) := by
  unfold clampU32
  split
  · omega
  · split <;> omega

/-- Claim C4, counterexample.  With a single available format
`(B8G8R8A8_UNORM = 44, SRGB nonlinear)` and the preferred pair absent, the
selection loop keeps the zero-initialized static `(VK_FORMAT_UNDEFINED, 0)`
instead of falling back to the first available format. -/
theorem C4_counterexample :
    select_format initial_selection_state.prevFormat
        [{ format := 44, colorSpace := 0 }] = { format := 0, colorSpace := 0 } ∧
    ({ format := 0, colorSpace := 0 } : VkSurfaceFormatKHR) ≠ { format := 44, colorSpace := 0 } ∧
    preferred_format ∉ [({ format := 44, colorSpace := 0 } : VkSurfaceFormatKHR)] ∧
    List.headD [({ format := 44, colorSpace := 0 } : VkSurfaceFormatKHR)]
        { format := 0, colorSpace := 0 } = { format := 44, colorSpace := 0 } := by
  decide

/-- Claim C4 (amended): if the pair (B8G8R8A8 SRGB, SRGB nonlinear) is
among the available formats it is selected; if it is absent, the previous
value of the `_swapchain_format` static is kept (zero initialized before
the first call), not the first available format. -/
theorem C4_format_selection (prev : VkSurfaceFormatKHR) (formats : List VkSurfaceFormatKHR) :
    (preferred_format ∈ formats → select_format prev formats = preferred_format) ∧
    (preferred_format ∉ formats → select_format prev formats = prev) :=
  ⟨select_format_of_mem prev formats, select_format_of_not_mem prev formats⟩

/-- Witness for C4: concrete evaluations of both branches. -/
theorem C4_format_selection_witness :
    select_format { format := 0, colorSpace := 0 } [preferred_format] = preferred_format ∧
    select_format { format := 7, colorSpace := 3 } [] = { format := 7, colorSpace := 3 } :=
  ⟨(C4_format_selection { format := 0, colorSpace := 0 } [preferred_format]).1 (by decide),
   (C4_format_selection { format := 7, colorSpace := 3 } []).2 (by decide)⟩

/-- Capability record used by the C5 counterexample. -/
def c5_caps : VkSurfaceCapabilitiesKHR :=
  { minImageCount := 2, maxImageCount := 8,
    currentExtent := { width := 800, height := 600 },
    minImageExtent := { width := 1, height := 1 },
    maxImageExtent := { width := 4096, height := 4096 } }

/-- Query results without the preferred format and without mailbox mode. -/
def c5_sup_plain : SwapchainSupport :=
  { capabilities := c5_caps,
    formats := [{ format := 44, colorSpace := 0 }],
    present_modes := [VK_PRESENT_MODE_FIFO_KHR] }

/-- Query results offering the preferred format and mailbox mode. -/
def c5_sup_rich : SwapchainSupport :=
  { capabilities := c5_caps,
    formats := [preferred_format],
    present_modes := [VK_PRESENT_MODE_MAILBOX_KHR, VK_PRESENT_MODE_FIFO_KHR] }

/-- Claim C5, counterexample.  Two `create_swapchain` calls observing the
identical four inputs (`c5_sup_plain` and window size 800×600) select
different (format, mode, extent) triples depending on whether an earlier
call saw the preferred format and mailbox mode: the statics
`_swapchain_format` and `_swapchain_mode` leak state between calls. -/
theorem C5_counterexample :
    (create_swapchain_call
        (create_swapchain_call initial_selection_state c5_sup_rich 800 600).2
        c5_sup_plain 800 600).1 ≠
    (create_swapchain_call initial_selection_state c5_sup_plain 800 600).1 := by
  decide

/-- Claim C5 (amended): selection is a deterministic function of the four
inputs together with the prior values of the format/mode statics; and
whenever the preferred format and the mailbox mode are both available, the
selection is independent of that prior state. -/
theorem C5_selection_deterministic (st st' : SelectionState) (sup : SwapchainSupport)
    (w h : Int)
    (hf : preferred_format ∈ sup.formats)
    (hm : VK_PRESENT_MODE_MAILBOX_KHR ∈ sup.present_modes) :
    create_swapchain_select st sup w h = create_swapchain_select st' sup w h := by
  unfold create_swapchain_select
  rw [select_format_of_mem _ _ hf, select_format_of_mem _ _ hf,
    select_mode_eq, select_mode_eq, if_pos hm, if_pos hm]

/-- Witness for C5: the amended determinism at concrete prior states. -/
theorem C5_selection_deterministic_witness :
    create_swapchain_select initial_selection_state c5_sup_rich 800 600 =
    create_swapchain_select { prevFormat := { format := 9, colorSpace := 4 }, prevMode := 0 }
      c5_sup_rich 800 600 :=
  C5_selection_deterministic initial_selection_state
    { prevFormat := { format := 9, colorSpace := 4 }, prevMode := 0 }
    c5_sup_rich 800 600 (by decide) (by decide)

/-- Claim C7 (confirmed): when `currentExtent.width` is the max-uint32
sentinel, the selected extent is the drawable size clamped componentwise
into `[minImageExtent, maxImageExtent]`; otherwise it is exactly
`currentExtent`. -/
theorem C7_extent_selection (caps : VkSurfaceCapabilitiesKHR) (w h : Int)
    (hw : caps.minImageExtent.width ≤ caps.maxImageExtent.width)
    (hh : caps.minImageExtent.height ≤ caps.maxImageExtent.height) :
    (caps.currentExtent.width = UINT32_MAX →
      (select_extent caps w h).width =
        max caps.minImageExtent.width (min (toU32 w) caps.maxImageExtent.width) ∧
      (select_extent caps w h).height =
        max caps.minImageExtent.height (min (toU32 h) caps.maxImageExtent.height)) ∧
    (caps.currentExtent.width ≠ UINT32_MAX → select_extent caps w h = caps.currentExtent) := by
  constructor
  · intro hs
    rw [select_extent, if_pos hs]
    exact ⟨clampU32_eq _ _ _ hw, clampU32_eq _ _ _ hh⟩
  · intro hs
    rw [select_extent, if_neg hs]

/-- Capability record with the "use window size" sentinel and a narrow
allowed extent range. -/
def c7_caps : VkSurfaceCapabilitiesKHR :=
  { minImageCount := 2, maxImageCount := 8,
    currentExtent := { width := UINT32_MAX, height := 0 },
    minImageExtent := { width := 100, height := 100 },
    maxImageExtent := { width := 200, height := 200 } }

/-- Witness for C7: a 5000×50 window against `[100,200]²` yields the
clamped extent 200×100, not the raw window size. -/
theorem C7_extent_selection_witness :
    (select_extent c7_caps 5000 50).width = max 100 (min (toU32 5000) 200) ∧
    (select_extent c7_caps 5000 50).height = max 100 (min (toU32 50) 200) :=
  (C7_extent_selection c7_caps 5000 50 (by decide) (by decide)).1 (by decide)

/-- Claim C8 (confirmed): for any capabilities whose `minImageCount + 1`
does not overflow `uint32_t`, the requested image count is
`min(minImageCount + 1, maxImageCount)`. -/
theorem C8_image_count (caps : VkSurfaceCapabilitiesKHR)
    (h : caps.minImageCount + 1 < U32_MOD) :
    image_count caps = min (caps.minImageCount + 1) caps.maxImageCount := by
  unfold image_count
  rw [Nat.mod_eq_of_lt h]

/-- Witness for C8: a surface with min 2 and max 3 is asked for 3 images. -/
theorem C8_image_count_witness :
    image_count c5_caps = min (c5_caps.minImageCount + 1) c5_caps.maxImageCount :=
  C8_image_count c5_caps (by decide)

/-- Claim C9 (confirmed): given that `run` either returns `EXIT_SUCCESS`,
returns `EXIT_FAILURE` (the print-and-return snapshots), or throws, the
process exit code computed by `main` is 0 exactly on a successful return
and 1 in every other case — every exception from `run` is absorbed by the
single top-level catch. -/
theorem C9_exit_codes (r : RunOutcome)
    (h : r = RunOutcome.ret EXIT_SUCCESS ∨ r = RunOutcome.ret EXIT_FAILURE ∨
      ∃ m, r = RunOutcome.threw m) :
    (main_result r = EXIT_SUCCESS ↔ r = RunOutcome.ret EXIT_SUCCESS) ∧
    (main_result r = EXIT_FAILURE ↔ r ≠ RunOutcome.ret EXIT_SUCCESS) := by
  rcases h with h | h | ⟨m, h⟩ <;> subst h <;>
    simp [main_result, EXIT_SUCCESS, EXIT_FAILURE]

/-- Swapchain recreation never touches `_current_frame`. -/
theorem recreate_swapchain_frame (m : Bool) (s : AppState) :
    (recreate_swapchain m s).1.current_frame = s.current_frame := by
  unfold recreate_swapchain
  split <;> rfl

/-- Swapchain recreation never touches the in-flight fences. -/
theorem recreate_swapchain_fences (m : Bool) (s : AppState) :
    (recreate_swapchain m s).1.fences = s.fences := by
  unfold recreate_swapchain
  split <;> rfl

/-- Indexed read of a fence list is unchanged by a write at another slot. -/
theorem fences_getD_set_ne (l : List Bool) (n m : Nat) (a d : Bool) (h : n ≠ m) :
    (l.set n a).getD m d = l.getD m d := by
  simp [List.getD_eq_getElem?_getD, List.getElem?_set_ne h]

/-- Claim C1, counterexample.  A tick in which acquisition reports
out-of-date returns before the slot-advance statement: starting from slot
0 the tick completes with slot still 0, not `(0+1) mod 2 = 1`. -/
theorem C1_counterexample :
    (draw_frame
        { acquireRes := VkResult.errorOutOfDateKHR, imageIdx := 0, submitOk := true,
          presentRes := VkResult.success, minimized := false }
        init_state).map (fun p => p.1.current_frame) = Except.ok 0 ∧
    (init_state.current_frame + 1) % MAX_FRAMES_IN_FLIGHT = 1 :=
  ⟨rfl, rfl⟩

/-- Claim C1 (amended): on every tick that does not end the process, the
slot index advances exactly as `(n+1) mod 2` unless acquisition reported
out-of-date, in which case the tick returns early and the slot index is
left unchanged; present-triggered recreation still advances the index. -/
theorem C1_slot_advance (inp : TickInput) (s s' : AppState) (eff : List Effect)
    (h : draw_frame inp s = Except.ok (s', eff)) :
    s'.current_frame =
      if inp.acquireRes = VkResult.errorOutOfDateKHR then s.current_frame
      else (s.current_frame + 1) % MAX_FRAMES_IN_FLIGHT := by
  simp only [draw_frame] at h
  by_cases h1 : inp.acquireRes = VkResult.errorOutOfDateKHR
  · rw [if_pos h1] at h
    rw [if_pos h1]
    injection h with h'
    injection h' with hX hE
    subst hX
    exact recreate_swapchain_frame _ _
  · rw [if_neg h1] at h
    rw [if_neg h1]
    by_cases h2 : inp.acquireRes ≠ VkResult.success ∧ inp.acquireRes ≠ VkResult.suboptimalKHR
    · rw [if_pos h2] at h
      exact absurd h (by simp)
    · rw [if_neg h2] at h
      by_cases h3 : inp.submitOk = false
      · rw [if_pos h3] at h
        exact absurd h (by simp)
      · rw [if_neg h3] at h
        by_cases h4 : inp.presentRes = VkResult.errorOutOfDateKHR ∨
            inp.presentRes = VkResult.suboptimalKHR ∨ s.window_resized = true
        · rw [if_pos h4] at h
          injection h with h'
          injection h' with hX hE
          subst hX
          rfl
        · rw [if_neg h4] at h
          by_cases h5 : inp.presentRes ≠ VkResult.success
          · rw [if_pos h5] at h
            exact absurd h (by simp)
          · rw [if_neg h5] at h
            injection h with h'
            injection h' with hX hE
            subst hX
            rfl

/-- Witness for C1: a fully successful tick from the initial state
advances the slot from 0 to 1. -/
theorem C1_slot_advance_witness :
    (AppState.mk 1 false [false, true] 0).current_frame =
      if (TickInput.mk VkResult.success 0 true VkResult.success false).acquireRes =
          VkResult.errorOutOfDateKHR then init_state.current_frame
      else (init_state.current_frame + 1) % MAX_FRAMES_IN_FLIGHT :=
  C1_slot_advance (TickInput.mk VkResult.success 0 true VkResult.success false) init_state
    (AppState.mk 1 false [false, true] 0)
    [Effect.waitFence 0, Effect.acquireImage 0, Effect.resetFence 0, Effect.updateUBOs 0,
     Effect.resetCommandBuffer 0, Effect.recordCommand 0 0, Effect.queueSubmit 0,
     Effect.presentImage 0] rfl

/-- Claim C2 (confirmed): on a tick that reaches the present step
(acquisition returned success or suboptimal, and submission succeeded),
the swapchain is recreated exactly when present returns out-of-date or
suboptimal or the resize flag is set (the rebuild happening whenever the
window is not minimized), and any other non-success present result throws
the fatal present error. -/
theorem C2_present_outcome (inp : TickInput) (s : AppState)
    (hacq : inp.acquireRes = VkResult.success ∨ inp.acquireRes = VkResult.suboptimalKHR)
    (hsub : inp.submitOk = true) :
    ((inp.presentRes = VkResult.errorOutOfDateKHR ∨ inp.presentRes = VkResult.suboptimalKHR ∨
        s.window_resized = true) →
      ∃ p, draw_frame inp s = Except.ok p ∧
        (inp.minimized = false → p.1.swapchain_generation = s.swapchain_generation + 1)) ∧
    ((inp.presentRes ≠ VkResult.errorOutOfDateKHR ∧ inp.presentRes ≠ VkResult.suboptimalKHR ∧
        s.window_resized = false ∧ inp.presentRes ≠ VkResult.success) →
      draw_frame inp s = Except.error "Failed to present swap chain image!") := by
  have h1 : ¬ inp.acquireRes = VkResult.errorOutOfDateKHR := by
    rcases hacq with h | h <;> simp [h]
  have h2 : ¬(inp.acquireRes ≠ VkResult.success ∧ inp.acquireRes ≠ VkResult.suboptimalKHR) := by
    rcases hacq with h | h <;> simp [h]
  have h3 : ¬(inp.submitOk = false) := by simp [hsub]
  constructor
  · intro hp
    have hdf : draw_frame inp s =
        Except.ok
          ({ (recreate_swapchain inp.minimized
                { s with fences := s.fences.set s.current_frame false }).1 with
              current_frame := (s.current_frame + 1) % MAX_FRAMES_IN_FLIGHT },
           [Effect.waitFence s.current_frame, Effect.acquireImage s.current_frame,
            Effect.resetFence s.current_frame, Effect.updateUBOs s.current_frame,
            Effect.resetCommandBuffer s.current_frame,
            Effect.recordCommand s.current_frame inp.imageIdx,
            Effect.queueSubmit s.current_frame, Effect.presentImage inp.imageIdx] ++
           (recreate_swapchain inp.minimized
                { s with fences := s.fences.set s.current_frame false }).2) := by
      simp only [draw_frame]
      rw [if_neg h1, if_neg h2, if_neg h3, if_pos hp]
      rfl
    refine ⟨_, hdf, ?_⟩
    intro hmin
    rw [hmin]
    rfl
  · intro ⟨hp1, hp2, hp3, hp4⟩
    have hpn : ¬(inp.presentRes = VkResult.errorOutOfDateKHR ∨
        inp.presentRes = VkResult.suboptimalKHR ∨ s.window_resized = true) := by
      simp [hp1, hp2, hp3]
    simp only [draw_frame]
    rw [if_neg h1, if_neg h2, if_neg h3, if_neg hpn, if_pos hp4]

/-- Witness for C2: a present result outside the handled set (here the
numeric code -4, `VK_ERROR_DEVICE_LOST`) throws the fatal present error. -/
theorem C2_present_outcome_witness :
    draw_frame (TickInput.mk VkResult.success 0 true (VkResult.otherError (-4)) false)
        init_state = Except.error "Failed to present swap chain image!" :=
  (C2_present_outcome (TickInput.mk VkResult.success 0 true (VkResult.otherError (-4)) false)
    init_state (Or.inl rfl) rfl).2 (by decide)

/-- Claim C3 (confirmed): a tick in which acquisition reports out-of-date
only recreates the swapchain and returns: the fences are untouched, the
slot index is unchanged, and the tick's effects are limited to the fence
wait, the acquisition and the recreation calls — no fence reset, no
command-buffer reset or recording, no submit and no present. -/
theorem C3_acquire_ood_skips (inp : TickInput) (s : AppState)
    (h : inp.acquireRes = VkResult.errorOutOfDateKHR) :
    ∃ p, draw_frame inp s = Except.ok p ∧
      p.1.fences = s.fences ∧
      p.1.current_frame = s.current_frame ∧
      (inp.minimized = false → p.1.swapchain_generation = s.swapchain_generation + 1) ∧
      ∀ e ∈ p.2, e = Effect.waitFence s.current_frame ∨
        e = Effect.acquireImage s.current_frame ∨ e = Effect.deviceWaitIdle ∨
        e = Effect.destroySwapchain ∨ e = Effect.createSwapchain := by
  have hdf : draw_frame inp s =
      Except.ok ((recreate_swapchain inp.minimized s).1,
        [Effect.waitFence s.current_frame, Effect.acquireImage s.current_frame] ++
          (recreate_swapchain inp.minimized s).2) := by
    simp only [draw_frame]
    rw [if_pos h]
  refine ⟨_, hdf, recreate_swapchain_fences _ _, recreate_swapchain_frame _ _, ?_, ?_⟩
  · intro hmin
    rw [hmin]
    rfl
  · intro e he
    cases hm : inp.minimized <;> rw [hm] at he <;>
      simp only [recreate_swapchain, if_pos, if_neg, Bool.false_eq_true,
        not_false_iff, ite_true, ite_false, List.append_nil, List.mem_append,
        List.mem_cons, List.not_mem_nil, or_false] at he <;> tauto

/-- Witness for C3: the acquisition-out-of-date tick evaluated from the
initial state. -/
theorem C3_acquire_ood_skips_witness :
    ∃ p, draw_frame (TickInput.mk VkResult.errorOutOfDateKHR 3 true VkResult.success false)
        init_state = Except.ok p ∧
      p.1.fences = init_state.fences ∧
      p.1.current_frame = init_state.current_frame ∧
      ((TickInput.mk VkResult.errorOutOfDateKHR 3 true VkResult.success false).minimized =
        false → p.1.swapchain_generation = init_state.swapchain_generation + 1) ∧
      ∀ e ∈ p.2, e = Effect.waitFence init_state.current_frame ∨
        e = Effect.acquireImage init_state.current_frame ∨ e = Effect.deviceWaitIdle ∨
        e = Effect.destroySwapchain ∨ e = Effect.createSwapchain :=
  C3_acquire_ood_skips (TickInput.mk VkResult.errorOutOfDateKHR 3 true VkResult.success false)
    init_state rfl

/-- Claim C6 (confirmed): recreation requested while minimized is a
complete no-op (identical state, no effects, resize flag kept), and with
the resize flag still set, the next non-minimized tick that reaches the
present step rebuilds the swapchain and clears the flag. -/
theorem C6_minimized_defer (s : AppState) (inp : TickInput)
    (hres : s.window_resized = true)
    (hmin : inp.minimized = false)
    (hacq : inp.acquireRes = VkResult.success ∨ inp.acquireRes = VkResult.suboptimalKHR)
    (hsub : inp.submitOk = true) :
    recreate_swapchain true s = (s, []) ∧
    ∃ p, draw_frame inp s = Except.ok p ∧
      p.1.swapchain_generation = s.swapchain_generation + 1 ∧
      p.1.window_resized = false := by
  have h1 : ¬ inp.acquireRes = VkResult.errorOutOfDateKHR := by
    rcases hacq with h | h <;> simp [h]
  have h2 : ¬(inp.acquireRes ≠ VkResult.success ∧ inp.acquireRes ≠ VkResult.suboptimalKHR) := by
    rcases hacq with h | h <;> simp [h]
  have h3 : ¬(inp.submitOk = false) := by simp [hsub]
  have hp : inp.presentRes = VkResult.errorOutOfDateKHR ∨
      inp.presentRes = VkResult.suboptimalKHR ∨ s.window_resized = true :=
    Or.inr (Or.inr hres)
  refine ⟨rfl, ?_⟩
  have hdf : draw_frame inp s =
      Except.ok
        ({ (recreate_swapchain inp.minimized
              { s with fences := s.fences.set s.current_frame false }).1 with
            current_frame := (s.current_frame + 1) % MAX_FRAMES_IN_FLIGHT },
         [Effect.waitFence s.current_frame, Effect.acquireImage s.current_frame,
          Effect.resetFence s.current_frame, Effect.updateUBOs s.current_frame,
          Effect.resetCommandBuffer s.current_frame,
          Effect.recordCommand s.current_frame inp.imageIdx,
          Effect.queueSubmit s.current_frame, Effect.presentImage inp.imageIdx] ++
         (recreate_swapchain inp.minimized
              { s with fences := s.fences.set s.current_frame false }).2) := by
    simp only [draw_frame]
    rw [if_neg h1, if_neg h2, if_neg h3, if_pos hp]
    rfl
  refine ⟨_, hdf, ?_, ?_⟩
  · rw [hmin]
    rfl
  · rw [hmin]
    rfl

/-- Witness for C6: a resized, non-minimized successful tick from slot 0
bumps the swapchain generation from 5 to 6 and clears the flag. -/
theorem C6_minimized_defer_witness :
    recreate_swapchain true (AppState.mk 0 true [true, true] 5) =
      (AppState.mk 0 true [true, true] 5, []) ∧
    ∃ p, draw_frame (TickInput.mk VkResult.success 1 true VkResult.success false)
        (AppState.mk 0 true [true, true] 5) = Except.ok p ∧
      p.1.swapchain_generation = (AppState.mk 0 true [true, true] 5).swapchain_generation + 1 ∧
      p.1.window_resized = false :=
  C6_minimized_defer (AppState.mk 0 true [true, true] 5)
    (TickInput.mk VkResult.success 1 true VkResult.success false) rfl rfl (Or.inl rfl) rfl

/-- A single tick can only change the signaled flag of a fence slot whose
reset appears among the tick's effects. -/
theorem draw_frame_fences_getD (inp : TickInput) (s s' : AppState) (eff : List Effect) (i : Nat)
    (h : draw_frame inp s = Except.ok (s', eff)) (hni : Effect.resetFence i ∉ eff) :
    s'.fences.getD i false = s.fences.getD i false := by
  simp only [draw_frame] at h
  by_cases h1 : inp.acquireRes = VkResult.errorOutOfDateKHR
  · rw [if_pos h1] at h
    injection h with h'
    injection h' with hX hE
    subst hX
    rw [recreate_swapchain_fences]
  · rw [if_neg h1] at h
    by_cases h2 : inp.acquireRes ≠ VkResult.success ∧ inp.acquireRes ≠ VkResult.suboptimalKHR
    · rw [if_pos h2] at h
      exact absurd h (by simp)
    · rw [if_neg h2] at h
      by_cases h3 : inp.submitOk = false
      · rw [if_pos h3] at h
        exact absurd h (by simp)
      · rw [if_neg h3] at h
        by_cases h4 : inp.presentRes = VkResult.errorOutOfDateKHR ∨
            inp.presentRes = VkResult.suboptimalKHR ∨ s.window_resized = true
        · rw [if_pos h4] at h
          injection h with h'
          injection h' with hX hE
          subst hX
          subst hE
          have hic : i ≠ s.current_frame := by
            intro he
            exact hni (by rw [he]; simp)
          rw [show ({ (recreate_swapchain inp.minimized
                { s with fences := s.fences.set s.current_frame false }).1 with
              current_frame := (s.current_frame + 1) % MAX_FRAMES_IN_FLIGHT } :
              AppState).fences =
              (recreate_swapchain inp.minimized
                { s with fences := s.fences.set s.current_frame false }).1.fences from rfl,
            recreate_swapchain_fences]
          exact fences_getD_set_ne _ _ _ _ _ (Ne.symm hic)
        · rw [if_neg h4] at h
          by_cases h5 : inp.presentRes ≠ VkResult.success
          · rw [if_pos h5] at h
            exact absurd h (by simp)
          · rw [if_neg h5] at h
            injection h with h'
            injection h' with hX hE
            subst hX
            subst hE
            have hic : i ≠ s.current_frame := by
              intro he
              exact hni (by rw [he]; simp)
            exact fences_getD_set_ne _ _ _ _ _ (Ne.symm hic)

/-- Across any tick sequence, a fence slot never reset keeps its flag. -/
theorem run_ticks_fences_getD (inputs : List TickInput) (s s' : AppState) (eff : List Effect)
    (i : Nat) (h : run_ticks inputs s = Except.ok (s', eff))
    (hni : Effect.resetFence i ∉ eff) :
    s'.fences.getD i false = s.fences.getD i false := by
  induction inputs generalizing s eff with
  | nil =>
    simp only [run_ticks] at h
    injection h with h'
    injection h' with hX hE
    subst hX
    rfl
  | cons inp rest ih =>
    simp only [run_ticks] at h
    split at h
    · exact absurd h (by simp)
    · rename_i s1 eff1 hd
      split at h
      · exact absurd h (by simp)
      · rename_i s2 eff2 hr
        injection h with h'
        injection h' with hX hE
        subst hX
        subst hE
        have hni1 : Effect.resetFence i ∉ eff1 := fun hm => hni (List.mem_append_left _ hm)
        have hni2 : Effect.resetFence i ∉ eff2 := fun hm => hni (List.mem_append_right _ hm)
        rw [ih s1 eff2 hr hni2, draw_frame_fences_getD inp s s1 eff1 i hd hni1]

/-- Claim C10 (confirmed): both in-flight fences are created already
signaled (`VK_FENCE_CREATE_SIGNALED_BIT`), so the blocking wait at the top
of the very first tick returns immediately; more generally, any slot whose
fence has never been reset by some earlier tick still holds a signaled
fence, so the first-ever tick of each slot cannot deadlock on step 1. -/
theorem C10_first_tick_no_deadlock :
    (∀ i, i < MAX_FRAMES_IN_FLIGHT → init_state.fences.getD i false = true) ∧
    wait_would_block init_state = false ∧
    (∀ inputs s' eff, run_ticks inputs init_state = Except.ok (s', eff) →
      ∀ i, i < MAX_FRAMES_IN_FLIGHT → Effect.resetFence i ∉ eff →
        s'.fences.getD i false = true) := by
  refine ⟨?_, by decide, ?_⟩
  · intro i hi
    have hi2 : i < 2 := hi
    interval_cases i <;> decide
  · intro inputs s' eff h i hi hni
    rw [run_ticks_fences_getD inputs init_state s' eff i h hni]
    have hi2 : i < 2 := hi
    interval_cases i <;> decide

/-- Witness for C10: after one minimized out-of-date tick neither fence
was reset, and slot 1 (not yet ever current) still has a signaled fence. -/
theorem C10_first_tick_no_deadlock_witness :
    (AppState.mk 0 false [true, true] 0).fences.getD 1 false = true :=
  C10_first_tick_no_deadlock.2.2
    [TickInput.mk VkResult.errorOutOfDateKHR 0 true VkResult.success true]
    (AppState.mk 0 false [true, true] 0)
    [Effect.waitFence 0, Effect.acquireImage 0] rfl 1 (by decide) (by decide)

/-- Witness for C9: an exception thrown out of `run` yields exit code 1. -/
theorem C9_exit_codes_witness :
    main_result (RunOutcome.threw "Failed to create swapchain!") = EXIT_FAILURE ↔
    RunOutcome.threw "Failed to create swapchain!" ≠ RunOutcome.ret EXIT_SUCCESS :=
  (C9_exit_codes (RunOutcome.threw "Failed to create swapchain!")
    (Or.inr (Or.inr ⟨"Failed to create swapchain!", rfl⟩))).2

end VkDraw
